import Mathlib

/-
Shallow embedding of the cryptobox C-callable boundary layer (src/src/api.rs).

The repository is a thin FFI layer over two external collaborators:
the "proteus" ratchet library and a "Store" persistence backend.
External collaborator calls are modelled as follows:

* The Store (trait Store in store::api) is modelled as an explicit state
  (StoreState) plus a failure oracle (fails : StoreEvent -> Bool): every
  Store operation is fallible in the source (StorageResult), so each
  modelled operation consults the oracle for its event, fails without
  changing state when the oracle says so, and otherwise performs its
  effect.  Every operation also reports the event it attempted, so that
  theorems can speak about which Store accesses a boundary call performs
  and in which order.

* Pure or opaque ratchet-library values (key pairs, prekeys, sessions,
  envelopes, serialized byte strings) are modelled as first-order data
  with the fields the boundary layer actually inspects; ratchet-library
  functions that the boundary merely invokes (deserialisers, serialisers,
  Session.encrypt, Session.decrypt, Session.init_from_message, key
  generation) are passed in as explicit function arguments, and theorems
  quantify over them.

* C strings (the *const c_char arguments) are modelled as the list of
  bytes sitting in memory at the pointer; CStr.from_ptr reads up to the
  first 0 byte (takeWhile), exactly as in Rust.
-/

namespace Cryptobox

/-- Opaque public key material (proteus keys::IdentityKey / PublicKey). -/
structure PublicKey where
  key : Nat
deriving DecidableEq, Repr

/-- Opaque secret key material. -/
structure SecretKey where
  key : Nat
deriving DecidableEq, Repr

/-- proteus keys::IdentityKeyPair: a secret key together with its public key. -/
structure IdentityKeyPair where
  secret_key : SecretKey
  public_key : PublicKey
deriving DecidableEq, Repr

/-- identity::Identity: either a full key pair (Sec) or a public-only record (Pub). -/
inductive Identity where
  | Sec : IdentityKeyPair → Identity
  | Pub : PublicKey → Identity
deriving DecidableEq, Repr

/-- proteus keys::PreKeyId (a u16 value at the boundary). -/
abbrev PreKeyId := Nat

/-- Opaque one-time prekey record (proteus keys::PreKey). -/
structure PreKey where
  key_id : PreKeyId
  key_data : Nat
deriving DecidableEq, Repr

/-- Opaque ratchet session state (proteus session::Session). -/
abbrev SessionData := Nat

/-- Opaque decoded message envelope (proteus message::Envelope). -/
abbrev Envelope := Nat

/-- Opaque decoded prekey bundle (proteus keys::PreKeyBundle). -/
abbrev PreKeyBundle := Nat

/-- CBoxIdentityMode from api.rs: Complete = 0, Public = 1. -/
inductive CBoxIdentityMode where
  | Complete
  | Public
deriving DecidableEq, Repr

/-- CBoxResult from api.rs: the closed numeric result-code taxonomy. -/
inductive CBoxResult where
  | Success
  | StorageError
  | SessionNotFound
  | DecodeError
  | RemoteIdentityChanged
  | InvalidSignature
  | InvalidMessage
  | DuplicateMessage
  | TooDistantFuture
  | OutdatedMessage
  | Utf8Error
  | NulError
  | EncodeError
  | IdentityError
  | PreKeyNotFound
deriving DecidableEq, Repr

/-- proteus session::DecryptError variants (the type parameter of
PreKeyStoreError is irrelevant to the boundary mapping and is dropped). -/
inductive DecryptErr where
  | RemoteIdentityChanged
  | InvalidSignature
  | InvalidMessage
  | DuplicateMessage
  | TooDistantFuture
  | OutdatedMessage
  | PreKeyNotFound
  | PreKeyStoreError
deriving DecidableEq, Repr

/-- impl From DecryptError for CBoxResult in api.rs. -/
def decryptErrToResult : DecryptErr → CBoxResult
  | .RemoteIdentityChanged => .RemoteIdentityChanged
  | .InvalidSignature => .InvalidSignature
  | .InvalidMessage => .InvalidMessage
  | .DuplicateMessage => .DuplicateMessage
  | .TooDistantFuture => .TooDistantFuture
  | .OutdatedMessage => .OutdatedMessage
  | .PreKeyNotFound => .PreKeyNotFound
  | .PreKeyStoreError => .StorageError

/-- store::api::StorageError, opaque at this level. -/
inductive StorageError where
  | fail
deriving DecidableEq, Repr

-- Association-list helpers for the modelled Store state -----------------------

/-- Lookup in an association list. -/
def alistLookup {α β : Type} [DecidableEq α] (k : α) : List (α × β) → Option β
  | [] => none
  | (k₁, v) :: t => if k = k₁ then some v else alistLookup k t

/-- Remove every binding of a key from an association list. -/
def alistRemove {α β : Type} [DecidableEq α] (k : α) : List (α × β) → List (α × β)
  | [] => []
  | (k₁, v) :: t => if k = k₁ then alistRemove k t else (k₁, v) :: alistRemove k t

/-- Insert or replace a binding in an association list. -/
def alistInsert {α β : Type} [DecidableEq α] (k : α) (v : β) (l : List (α × β)) :
    List (α × β) :=
  (k, v) :: alistRemove k l

-- C string and UTF-8 boundary decoding ----------------------------------------

/-- CStr::from_ptr(p).to_bytes(): the bytes in memory at the pointer up to
(and excluding) the first 0 byte. -/
def cstrToBytes (mem : List Nat) : List Nat := mem.takeWhile (fun b => b != 0)

/-- Continuation byte test for the standard UTF-8 validation. -/
def utf8Cont (b : Nat) : Bool := decide (0x80 ≤ b ∧ b ≤ 0xBF)

/-- Standard UTF-8 validation (the algorithm behind str::from_utf8),
fuelled by the length of the input; each step consumes at least one byte,
so fuel = length suffices. -/
def validUtf8Fuel : Nat → List Nat → Bool
  | _, [] => true
  | 0, _ :: _ => false
  | fuel + 1, b₀ :: t₀ =>
    if b₀ ≤ 0x7F then validUtf8Fuel fuel t₀
    else if 0xC2 ≤ b₀ ∧ b₀ ≤ 0xDF then
      match t₀ with
      | b₁ :: t₁ => utf8Cont b₁ && validUtf8Fuel fuel t₁
      | [] => false
    else if b₀ = 0xE0 then
      match t₀ with
      | b₁ :: b₂ :: t₂ =>
        decide (0xA0 ≤ b₁ ∧ b₁ ≤ 0xBF) && utf8Cont b₂ && validUtf8Fuel fuel t₂
      | _ => false
    else if (0xE1 ≤ b₀ ∧ b₀ ≤ 0xEC) ∨ b₀ = 0xEE ∨ b₀ = 0xEF then
      match t₀ with
      | b₁ :: b₂ :: t₂ => utf8Cont b₁ && utf8Cont b₂ && validUtf8Fuel fuel t₂
      | _ => false
    else if b₀ = 0xED then
      match t₀ with
      | b₁ :: b₂ :: t₂ =>
        decide (0x80 ≤ b₁ ∧ b₁ ≤ 0x9F) && utf8Cont b₂ && validUtf8Fuel fuel t₂
      | _ => false
    else if b₀ = 0xF0 then
      match t₀ with
      | b₁ :: b₂ :: b₃ :: t₃ =>
        decide (0x90 ≤ b₁ ∧ b₁ ≤ 0xBF) && utf8Cont b₂ && utf8Cont b₃ &&
          validUtf8Fuel fuel t₃
      | _ => false
    else if 0xF1 ≤ b₀ ∧ b₀ ≤ 0xF3 then
      match t₀ with
      | b₁ :: b₂ :: b₃ :: t₃ =>
        utf8Cont b₁ && utf8Cont b₂ && utf8Cont b₃ && validUtf8Fuel fuel t₃
      | _ => false
    else if b₀ = 0xF4 then
      match t₀ with
      | b₁ :: b₂ :: b₃ :: t₃ =>
        decide (0x80 ≤ b₁ ∧ b₁ ≤ 0x8F) && utf8Cont b₂ && utf8Cont b₃ &&
          validUtf8Fuel fuel t₃
      | _ => false
    else false

/-- str::from_utf8 validity of a byte sequence. -/
def validUtf8 (l : List Nat) : Bool := validUtf8Fuel l.length l

/-- str::from_utf8 with the From Utf8Error for CBoxResult mapping of api.rs
already applied (the boundary immediately collapses the error).  A valid
string is kept as its byte sequence (UTF-8 decoding is injective on bytes,
so bytes serve as the model of the decoded string). -/
def strFromUtf8 (bs : List Nat) : Except CBoxResult (List Nat) :=
  if validUtf8 bs then .ok bs else .error .Utf8Error

/-- SID::from_raw of api.rs: read the C string at the pointer
(CStr::from_ptr, which stops at the first 0 byte), build a CString
(CString::new fails with NulError on an interior 0 byte), then validate
UTF-8.  The error type in the source is already CBoxResult. -/
def SID_from_raw (mem : List Nat) : Except CBoxResult (List Nat) :=
  if (cstrToBytes mem).contains 0 then .error .NulError
  else if validUtf8 (cstrToBytes mem) then .ok (cstrToBytes mem)
  else .error .Utf8Error

-- The Store collaborator -------------------------------------------------------

/-- One attempted operation against the Store collaborator. -/
inductive StoreEvent where
  | newStore (path : List Nat)
  | loadIdentity
  | saveIdentity (i : Identity)
  | loadSession (sid : List Nat)
  | saveSession (sid : List Nat) (d : SessionData)
  | deleteSession (sid : List Nat)
  | addPrekey (pk : PreKey)
  | getPrekey (id : PreKeyId)
  | removePrekey (id : PreKeyId)
deriving DecidableEq, Repr

/-- The persisted contents of one Store: at most one identity record,
sessions keyed by session identifier, prekeys keyed by prekey identifier. -/
structure StoreState where
  identity : Option Identity
  sessions : List (List Nat × SessionData)
  prekeys : List (PreKeyId × PreKey)
deriving DecidableEq, Repr

/-- A Store instance: its persisted state plus a failure oracle saying
which attempted operations fail (every Store operation is fallible in the
source, returning StorageResult). -/
structure Store where
  fails : StoreEvent → Bool
  st : StoreState

/-- Store::load_identity. -/
def Store.load_identity (s : Store) :
    Except StorageError (Option Identity) × Store × List StoreEvent :=
  if s.fails .loadIdentity then (.error .fail, s, [.loadIdentity])
  else (.ok s.st.identity, s, [.loadIdentity])

/-- Store::save_identity. -/
def Store.save_identity (s : Store) (i : Identity) :
    Except StorageError Unit × Store × List StoreEvent :=
  if s.fails (.saveIdentity i) then (.error .fail, s, [.saveIdentity i])
  else (.ok (), ⟨s.fails, ⟨some i, s.st.sessions, s.st.prekeys⟩⟩, [.saveIdentity i])

/-- Store::load_session (the identity argument is used by the backend to
decrypt the stored session and does not influence which record is found). -/
def Store.load_session (s : Store) (_ident : IdentityKeyPair) (sid : List Nat) :
    Except StorageError (Option SessionData) × Store × List StoreEvent :=
  if s.fails (.loadSession sid) then (.error .fail, s, [.loadSession sid])
  else (.ok (alistLookup sid s.st.sessions), s, [.loadSession sid])

/-- Store::save_session. -/
def Store.save_session (s : Store) (sid : List Nat) (d : SessionData) :
    Except StorageError Unit × Store × List StoreEvent :=
  if s.fails (.saveSession sid d) then (.error .fail, s, [.saveSession sid d])
  else (.ok (),
        ⟨s.fails, ⟨s.st.identity, alistInsert sid d s.st.sessions, s.st.prekeys⟩⟩,
        [.saveSession sid d])

/-- Store::delete_session. -/
def Store.delete_session (s : Store) (sid : List Nat) :
    Except StorageError Unit × Store × List StoreEvent :=
  if s.fails (.deleteSession sid) then (.error .fail, s, [.deleteSession sid])
  else (.ok (),
        ⟨s.fails, ⟨s.st.identity, alistRemove sid s.st.sessions, s.st.prekeys⟩⟩,
        [.deleteSession sid])

/-- Store::add_prekey. -/
def Store.add_prekey (s : Store) (pk : PreKey) :
    Except StorageError Unit × Store × List StoreEvent :=
  if s.fails (.addPrekey pk) then (.error .fail, s, [.addPrekey pk])
  else (.ok (),
        ⟨s.fails, ⟨s.st.identity, s.st.sessions, alistInsert pk.key_id pk s.st.prekeys⟩⟩,
        [.addPrekey pk])

/-- Store::prekey (lookup of a stored prekey by identifier). -/
def Store.prekey (s : Store) (id : PreKeyId) :
    Except StorageError (Option PreKey) × Store × List StoreEvent :=
  if s.fails (.getPrekey id) then (.error .fail, s, [.getPrekey id])
  else (.ok (alistLookup id s.st.prekeys), s, [.getPrekey id])

/-- Store::remove (deletion of a stored prekey by identifier). -/
def Store.remove (s : Store) (id : PreKeyId) :
    Except StorageError Unit × Store × List StoreEvent :=
  if s.fails (.removePrekey id) then (.error .fail, s, [.removePrekey id])
  else (.ok (),
        ⟨s.fails, ⟨s.st.identity, s.st.sessions, alistRemove id s.st.prekeys⟩⟩,
        [.removePrekey id])

-- ReadOnlyPks: the Deferred Prekey Store facade -------------------------------

/-- ReadOnlyPks::new: the facade starts with an empty pending-removal list
(the Store it borrows is threaded separately as explicit state). -/
def ReadOnlyPks.new : List PreKeyId := []

/-- impl PreKeyStore for ReadOnlyPks, fn prekey: an id contained in the
pending list is reported as absent without consulting the Store; otherwise
the lookup delegates to the underlying Store. -/
def ReadOnlyPks.prekey (prekeys : List PreKeyId) (s : Store) (id : PreKeyId) :
    Except StorageError (Option PreKey) × List PreKeyId × Store × List StoreEvent :=
  if prekeys.contains id then (.ok none, prekeys, s, [])
  else ((Store.prekey s id).1, prekeys, (Store.prekey s id).2.1, (Store.prekey s id).2.2)

/-- impl PreKeyStore for ReadOnlyPks, fn remove: push the id onto the
pending list and return success; the Store is not touched (no event). -/
def ReadOnlyPks.remove (prekeys : List PreKeyId) (s : Store) (id : PreKeyId) :
    Except StorageError Unit × List PreKeyId × Store × List StoreEvent :=
  (.ok (), prekeys ++ [id], s, [])

/-- One call against the PreKeyStore interface of a ReadOnlyPks instance
(the only two operations the facade exposes). -/
inductive PksOp where
  | lookup (id : PreKeyId)
  | consume (id : PreKeyId)
deriving DecidableEq, Repr

/-- Run a sequence of PreKeyStore calls against a ReadOnlyPks instance,
threading the pending list and the borrowed Store. -/
def runPksOps : List PksOp → List PreKeyId × Store → List PreKeyId × Store
  | [], ps => ps
  | .lookup id :: ops, (pending, s) =>
    runPksOps ops
      ((ReadOnlyPks.prekey pending s id).2.1, (ReadOnlyPks.prekey pending s id).2.2.1)
  | .consume id :: ops, (pending, s) =>
    runPksOps ops
      ((ReadOnlyPks.remove pending s id).2.1, (ReadOnlyPks.remove pending s id).2.2.1)

-- Handles ----------------------------------------------------------------------

/-- CBox: the Root Handle, owning the Store and the local identity pair. -/
structure CBox where
  store : Store
  ident : IdentityKeyPair

/-- CBoxSession: the Session Handle.  In the source it holds a mutable
borrow of its parent CBox, the ratchet session, the session identifier and
the ReadOnlyPks facade; the facade borrows the parent Store, so here the
Store lives in the CBox and the session carries only the pending list. -/
structure CBoxSession where
  sid : List Nat
  sess : SessionData
  prekeys : List PreKeyId
deriving DecidableEq, Repr

-- Boundary operations ----------------------------------------------------------

/-- cbox_file_open: decode the path C string, open the FileStore, load the
identity record; a full pair is adopted, a public-only record is an
IdentityError, no record generates and persists a fresh pair (the fresh
pair produced by IdentityKeyPair::new is the freshId argument).  Returns
(result, out-parameter written, Store at path afterwards, attempted Store
events). -/
def cbox_file_open (pathMem : List Nat) (freshId : IdentityKeyPair) (s : Store) :
    CBoxResult × Option CBox × Store × List StoreEvent :=
  match strFromUtf8 (cstrToBytes pathMem) with
  | .error e => (e, none, s, [])
  | .ok name =>
    if s.fails (.newStore name) then (.StorageError, none, s, [.newStore name])
    else
      match Store.load_identity s with
      | (.error _, s₁, tr) => (.StorageError, none, s₁, .newStore name :: tr)
      | (.ok (some (.Sec i)), s₁, tr) =>
        (.Success, some ⟨s₁, i⟩, s₁, .newStore name :: tr)
      | (.ok (some (.Pub _)), s₁, tr) =>
        (.IdentityError, none, s₁, .newStore name :: tr)
      | (.ok none, s₁, tr) =>
        match Store.save_identity s₁ (.Sec freshId) with
        | (.error _, s₂, tr₂) => (.StorageError, none, s₂, .newStore name :: (tr ++ tr₂))
        | (.ok _, s₂, tr₂) =>
          (.Success, some ⟨s₂, freshId⟩, s₂, .newStore name :: (tr ++ tr₂))

/-- cbox_file_open_with: decode the path, open the FileStore, deserialise
the externally supplied identity (idDec models Identity::deserialise on
the raw byte slice), reject a public-only external identity, then
reconcile with the stored record.  The source tests inequality of public
keys and returns IdentityError; here the equality test is written
positively with the branches swapped, which is the same function. -/
def cbox_file_open_with (idDec : List Nat → Except Unit Identity)
    (pathMem idBytes : List Nat) (mode : CBoxIdentityMode) (s : Store) :
    CBoxResult × Option CBox × Store × List StoreEvent :=
  match strFromUtf8 (cstrToBytes pathMem) with
  | .error e => (e, none, s, [])
  | .ok name =>
    if s.fails (.newStore name) then (.StorageError, none, s, [.newStore name])
    else
      match idDec idBytes with
      | .error _ => (.DecodeError, none, s, [.newStore name])
      | .ok (.Pub _) => (.IdentityError, none, s, [.newStore name])
      | .ok (.Sec ident) =>
        match Store.load_identity s with
        | (.error _, s₁, tr) => (.StorageError, none, s₁, .newStore name :: tr)
        | (.ok (some (.Sec localId)), s₁, tr) =>
          if ident.public_key = localId.public_key then
            if mode = CBoxIdentityMode.Public then
              match Store.save_identity s₁ (.Pub ident.public_key) with
              | (.error _, s₂, tr₂) =>
                (.StorageError, none, s₂, .newStore name :: (tr ++ tr₂))
              | (.ok _, s₂, tr₂) =>
                (.Success, some ⟨s₂, ident⟩, s₂, .newStore name :: (tr ++ tr₂))
            else (.Success, some ⟨s₁, ident⟩, s₁, .newStore name :: tr)
          else (.IdentityError, none, s₁, .newStore name :: tr)
        | (.ok (some (.Pub localPk)), s₁, tr) =>
          if ident.public_key = localPk then
            if mode = CBoxIdentityMode.Complete then
              match Store.save_identity s₁ (.Sec ident) with
              | (.error _, s₂, tr₂) =>
                (.StorageError, none, s₂, .newStore name :: (tr ++ tr₂))
              | (.ok _, s₂, tr₂) =>
                (.Success, some ⟨s₂, ident⟩, s₂, .newStore name :: (tr ++ tr₂))
            else (.Success, some ⟨s₁, ident⟩, s₁, .newStore name :: tr)
          else (.IdentityError, none, s₁, .newStore name :: tr)
        | (.ok none, s₁, tr) =>
          match mode with
          | .Public =>
            match Store.save_identity s₁ (.Pub ident.public_key) with
            | (.error _, s₂, tr₂) =>
              (.StorageError, none, s₂, .newStore name :: (tr ++ tr₂))
            | (.ok _, s₂, tr₂) =>
              (.Success, some ⟨s₂, ident⟩, s₂, .newStore name :: (tr ++ tr₂))
          | .Complete =>
            match Store.save_identity s₁ (.Sec ident) with
            | (.error _, s₂, tr₂) =>
              (.StorageError, none, s₂, .newStore name :: (tr ++ tr₂))
            | (.ok _, s₂, tr₂) =>
              (.Success, some ⟨s₂, ident⟩, s₂, .newStore name :: (tr ++ tr₂))

/-- cbox_identity_copy: serialise the local full identity (serIdent models
the fallible Identity::serialise) into a fresh Buffer out-parameter. -/
def cbox_identity_copy (serIdent : Identity → Except Unit (List Nat)) (cb : CBox) :
    CBoxResult × Option (List Nat) :=
  match serIdent (.Sec cb.ident) with
  | .error _ => (.EncodeError, none)
  | .ok bs => (.Success, some bs)

/-- cbox_new_prekey: generate a prekey (mkPreKey models PreKey::new),
persist it via Store::add_prekey, then serialise the bundle of the local
public identity key and the prekey (serBundle models
PreKeyBundle::new(..).serialise()). -/
def cbox_new_prekey (mkPreKey : PreKeyId → PreKey)
    (serBundle : PublicKey → PreKey → Except Unit (List Nat))
    (cb : CBox) (id : PreKeyId) :
    CBoxResult × Option (List Nat) × CBox × List StoreEvent :=
  match Store.add_prekey cb.store (mkPreKey id) with
  | (.error _, s₁, tr) => (.StorageError, none, ⟨s₁, cb.ident⟩, tr)
  | (.ok _, s₁, tr) =>
    match serBundle cb.ident.public_key (mkPreKey id) with
    | .error _ => (.EncodeError, none, ⟨s₁, cb.ident⟩, tr)
    | .ok bs => (.Success, some bs, ⟨s₁, cb.ident⟩, tr)

/-- CBOX_LAST_PREKEY_ID: the reserved last-resort prekey identifier. -/
def CBOX_LAST_PREKEY_ID : PreKeyId := 65535

/-- cbox_session_init_from_prekey: decode the session identifier and the
prekey bundle (bundleDec models PreKeyBundle::deserialise), create the
initiator session (mkSession models Session::init_from_prekey, a pure
ratchet-library call given only the identity and the bundle), and bind a
fresh ReadOnlyPks.  No Store operation is attempted. -/
def cbox_session_init_from_prekey (bundleDec : List Nat → Except Unit PreKeyBundle)
    (mkSession : IdentityKeyPair → PreKeyBundle → SessionData)
    (cb : CBox) (sidMem bundleBytes : List Nat) :
    CBoxResult × Option CBoxSession × CBox × List StoreEvent :=
  match SID_from_raw sidMem with
  | .error e => (e, none, cb, [])
  | .ok sid =>
    match bundleDec bundleBytes with
    | .error _ => (.DecodeError, none, cb, [])
    | .ok bundle =>
      (.Success, some ⟨sid, mkSession cb.ident bundle, ReadOnlyPks.new⟩, cb, [])

/-- cbox_session_init_from_message: decode the session identifier and the
envelope (envDec models Envelope::deserialise), then run the responder
derivation (initMsg models Session::init_from_message, which is handed a
fresh ReadOnlyPks and may call its PreKeyStore interface, so it yields the
ratchet outcome together with the final pending list, Store and events).
On success both the new Session Handle and the plaintext Buffer are
written. -/
def cbox_session_init_from_message (envDec : List Nat → Except Unit Envelope)
    (initMsg : IdentityKeyPair → Envelope → List PreKeyId → Store →
      Except DecryptErr (SessionData × List Nat) × List PreKeyId × Store × List StoreEvent)
    (cb : CBox) (sidMem cipher : List Nat) :
    CBoxResult × Option CBoxSession × Option (List Nat) × CBox × List StoreEvent :=
  match SID_from_raw sidMem with
  | .error e => (e, none, none, cb, [])
  | .ok sid =>
    match envDec cipher with
    | .error _ => (.DecodeError, none, none, cb, [])
    | .ok env =>
      match initMsg cb.ident env ReadOnlyPks.new cb.store with
      | (.error e, _, s₁, tr) =>
        (decryptErrToResult e, none, none, ⟨s₁, cb.ident⟩, tr)
      | (.ok (sd, plain), pending, s₁, tr) =>
        (.Success, some ⟨sid, sd, pending⟩, some plain, ⟨s₁, cb.ident⟩, tr)

/-- cbox_session_get: decode the session identifier, load the saved
session from the Store (CBox::session maps a missing record to
SessionNotFound), and bind a fresh ReadOnlyPks. -/
def cbox_session_get (cb : CBox) (sidMem : List Nat) :
    CBoxResult × Option CBoxSession × CBox × List StoreEvent :=
  match SID_from_raw sidMem with
  | .error e => (e, none, cb, [])
  | .ok sid =>
    match Store.load_session cb.store cb.ident sid with
    | (.error _, s₁, tr) => (.StorageError, none, ⟨s₁, cb.ident⟩, tr)
    | (.ok none, s₁, tr) => (.SessionNotFound, none, ⟨s₁, cb.ident⟩, tr)
    | (.ok (some d), s₁, tr) =>
      (.Success, some ⟨sid, d, ReadOnlyPks.new⟩, ⟨s₁, cb.ident⟩, tr)

/-- The prekey-removal commit loop of cbox_session_save: delete each
staged prekey from the Store in list order, stopping at the first
failure. -/
def commitPrekeys (s : Store) : List PreKeyId →
    Except StorageError Unit × Store × List StoreEvent
  | [] => (.ok (), s, [])
  | k :: ks =>
    match Store.remove s k with
    | (.error e, s₁, tr₁) => (.error e, s₁, tr₁)
    | (.ok _, s₁, tr₁) =>
      ((commitPrekeys s₁ ks).1, (commitPrekeys s₁ ks).2.1,
        tr₁ ++ (commitPrekeys s₁ ks).2.2)

/-- Delete a list of prekey identifiers from a prekey table in order. -/
def removeAllPrekeys (l : List (PreKeyId × PreKey)) : List PreKeyId →
    List (PreKeyId × PreKey)
  | [] => l
  | k :: ks => removeAllPrekeys (alistRemove k l) ks

/-- cbox_session_save: persist the ratchet session under its identifier,
then delete every staged pending prekey from the Store in order, then
clear the pending list.  Any failure returns early: after a failed
save_session nothing further runs; after a failed removal the loop stops
and the pending list is NOT cleared (the clear only follows a completed
loop in the source). -/
def cbox_session_save (cb : CBox) (sess : CBoxSession) :
    CBoxResult × CBox × CBoxSession × List StoreEvent :=
  match Store.save_session cb.store sess.sid sess.sess with
  | (.error _, s₁, tr₁) => (.StorageError, ⟨s₁, cb.ident⟩, sess, tr₁)
  | (.ok _, s₁, tr₁) =>
    match commitPrekeys s₁ sess.prekeys with
    | (.error _, s₂, tr₂) => (.StorageError, ⟨s₂, cb.ident⟩, sess, tr₁ ++ tr₂)
    | (.ok _, s₂, tr₂) =>
      (.Success, ⟨s₂, cb.ident⟩, ⟨sess.sid, sess.sess, []⟩, tr₁ ++ tr₂)

/-- cbox_session_close: Box::from_raw(c_sess) drops the Session Handle;
the drop glue frees memory and performs no Store operation, so the parent
Store is returned untouched with an empty event list. -/
def cbox_session_close (cb : CBox) (_sess : CBoxSession) : CBox × List StoreEvent :=
  (cb, [])

/-- cbox_session_delete: decode the session identifier and delete the
saved session record from the Store. -/
def cbox_session_delete (cb : CBox) (sidMem : List Nat) :
    CBoxResult × CBox × List StoreEvent :=
  match SID_from_raw sidMem with
  | .error e => (e, cb, [])
  | .ok sid =>
    match Store.delete_session cb.store sid with
    | (.error _, s₁, tr) => (.StorageError, ⟨s₁, cb.ident⟩, tr)
    | (.ok _, s₁, tr) => (.Success, ⟨s₁, cb.ident⟩, tr)

/-- cbox_encrypt: advance the sending ratchet and serialise the envelope
(encryptSer models Session::encrypt composed with Envelope::serialise);
the ciphertext Buffer is written only on success. -/
def cbox_encrypt (encryptSer : SessionData → List Nat → Except Unit (SessionData × List Nat))
    (sess : CBoxSession) (plain : List Nat) :
    CBoxResult × Option (List Nat) × CBoxSession :=
  match encryptSer sess.sess plain with
  | .error _ => (.EncodeError, none, sess)
  | .ok (sd, cipher) => (.Success, some cipher, ⟨sess.sid, sd, sess.prekeys⟩)

/-- cbox_decrypt: decode the envelope, then advance the receiving ratchet
(decryptFn models Session::decrypt, which is handed the mutable session
state and the ReadOnlyPks facade of the handle); the plaintext Buffer is
written only on success. -/
def cbox_decrypt (envDec : List Nat → Except Unit Envelope)
    (decryptFn : SessionData → List PreKeyId → Store → Envelope →
      Except DecryptErr (List Nat) × SessionData × List PreKeyId × Store × List StoreEvent)
    (cb : CBox) (sess : CBoxSession) (cipher : List Nat) :
    CBoxResult × Option (List Nat) × CBox × CBoxSession × List StoreEvent :=
  match envDec cipher with
  | .error _ => (.DecodeError, none, cb, sess, [])
  | .ok env =>
    match decryptFn sess.sess sess.prekeys cb.store env with
    | (.error e, sd, pending, s₁, tr) =>
      (decryptErrToResult e, none, ⟨s₁, cb.ident⟩,
        ⟨sess.sid, sd, pending⟩, tr)
    | (.ok plain, sd, pending, s₁, tr) =>
      (.Success, some plain, ⟨s₁, cb.ident⟩,
        ⟨sess.sid, sd, pending⟩, tr)

-- Helper lemmas about the prekey-removal commit loop --------------------------

/-- When the commit loop succeeds it deletes exactly the staged prekeys
from the Store, in list order, touching nothing else. -/
theorem commitPrekeys_ok (ks : List PreKeyId) (s : Store)
    (h : (commitPrekeys s ks).1 = .ok ()) :
    (commitPrekeys s ks).2.1.st.prekeys = removeAllPrekeys s.st.prekeys ks
    ∧ (commitPrekeys s ks).2.1.st.identity = s.st.identity
    ∧ (commitPrekeys s ks).2.1.st.sessions = s.st.sessions
    ∧ (commitPrekeys s ks).2.2 = ks.map StoreEvent.removePrekey := by
  induction ks generalizing s with
  | nil => simp [commitPrekeys, removeAllPrekeys]
  | cons k ks ih =>
    cases hf : s.fails (.removePrekey k) with
    | true =>
      exfalso
      unfold commitPrekeys Store.remove at h
      rw [hf] at h
      simp at h
    | false =>
      unfold commitPrekeys Store.remove at h ⊢
      rw [hf] at h ⊢
      simp only [Bool.false_eq_true, if_false] at h ⊢
      obtain ⟨h₁, h₂, h₃, h₄⟩ := ih _ h
      refine ⟨?_, by simpa using h₂, by simpa using h₃, by simpa using h₄⟩
      simpa [removeAllPrekeys] using h₁

/-- When the commit loop fails it has deleted exactly a prefix of the
staged prekeys from the Store, leaving other Store contents alone. -/
theorem commitPrekeys_err (ks : List PreKeyId) (s : Store)
    (h : (commitPrekeys s ks).1 ≠ .ok ()) :
    ∃ p q, ks = p ++ q
      ∧ (commitPrekeys s ks).2.1.st.prekeys = removeAllPrekeys s.st.prekeys p
      ∧ (commitPrekeys s ks).2.1.st.identity = s.st.identity
      ∧ (commitPrekeys s ks).2.1.st.sessions = s.st.sessions := by
  induction ks generalizing s with
  | nil => exact absurd rfl h
  | cons k ks ih =>
    cases hf : s.fails (.removePrekey k) with
    | true =>
      refine ⟨[], k :: ks, rfl, ?_, ?_, ?_⟩ <;>
        · unfold commitPrekeys Store.remove
          rw [hf]
          simp [removeAllPrekeys]
    | false =>
      unfold commitPrekeys Store.remove at h ⊢
      rw [hf] at h ⊢
      simp only [Bool.false_eq_true, if_false] at h ⊢
      obtain ⟨p, q, hpq, h₁, h₂, h₃⟩ := ih _ h
      refine ⟨k :: p, q, by simp [hpq], ?_, by simpa using h₂, by simpa using h₃⟩
      simpa [removeAllPrekeys] using h₁

-- C4 ---------------------------------------------------------------------------

/-- Claim C4: on success, Save() first persists the ratchet session state
under the session identifier, then deletes every staged pending prekey
from the Store (the attempted-event trace is exactly the saveSession event
followed by the removePrekey events in staging order, so no prekey is
deleted before the session state is persisted), and then clears the
pending-removal list. -/
theorem claim_C4 (cb : CBox) (sess : CBoxSession)
    (h : (cbox_session_save cb sess).1 = .Success) :
    (cbox_session_save cb sess).2.2.2
        = .saveSession sess.sid sess.sess :: sess.prekeys.map StoreEvent.removePrekey
    ∧ (cbox_session_save cb sess).2.2.1.prekeys = []
    ∧ (cbox_session_save cb sess).2.1.store.st.sessions
        = alistInsert sess.sid sess.sess cb.store.st.sessions
    ∧ (cbox_session_save cb sess).2.1.store.st.prekeys
        = removeAllPrekeys cb.store.st.prekeys sess.prekeys
    ∧ (cbox_session_save cb sess).2.1.store.st.identity = cb.store.st.identity := by
  cases hf : cb.store.fails (.saveSession sess.sid sess.sess) with
  | true =>
    exfalso
    unfold cbox_session_save Store.save_session at h
    rw [hf] at h
    simp at h
  | false =>
    unfold cbox_session_save Store.save_session at h ⊢
    rw [hf] at h ⊢
    simp only [Bool.false_eq_true, if_false] at h ⊢
    rcases hcp : commitPrekeys
        ⟨cb.store.fails, ⟨cb.store.st.identity,
          alistInsert sess.sid sess.sess cb.store.st.sessions, cb.store.st.prekeys⟩⟩
        sess.prekeys with ⟨r₂, s₂, tr₂⟩
    cases r₂ with
    | error e =>
      rw [hcp] at h
      simp at h
    | ok u =>
      have hok := commitPrekeys_ok sess.prekeys
        ⟨cb.store.fails, ⟨cb.store.st.identity,
          alistInsert sess.sid sess.sess cb.store.st.sessions, cb.store.st.prekeys⟩⟩
        (by rw [hcp])
      rw [hcp] at hok
      obtain ⟨h₁, h₂, h₃, h₄⟩ := hok
      simp only at h₁ h₂ h₃ h₄
      exact ⟨by simp [h₄], rfl, by simp [h₃], by simp [h₁], by simp [h₂]⟩

/-- Witness for C4 at a concrete input where Save() succeeds with two
staged prekeys. -/
def exPub : PublicKey := ⟨7⟩

/-- A concrete local identity key pair. -/
def exIdent : IdentityKeyPair := ⟨⟨3⟩, exPub⟩

/-- A Store failure oracle under which every operation succeeds. -/
def noFail : StoreEvent → Bool := fun _ => false

/-- A concrete Store holding no identity, no session and two prekeys. -/
def exStorePk : Store := ⟨noFail, ⟨none, [], [(1, ⟨1, 11⟩), (2, ⟨2, 22⟩)]⟩⟩

/-- A concrete Root Handle over exStorePk. -/
def exCBoxPk : CBox := ⟨exStorePk, exIdent⟩

/-- A concrete Session Handle with prekeys 1 and 2 staged for removal. -/
def exSessPending : CBoxSession := ⟨[97], 5, [1, 2]⟩

theorem claim_C4_witness :
    (cbox_session_save exCBoxPk exSessPending).1 = CBoxResult.Success
    ∧ (cbox_session_save exCBoxPk exSessPending).2.2.2
        = .saveSession exSessPending.sid exSessPending.sess
            :: exSessPending.prekeys.map StoreEvent.removePrekey
    ∧ (cbox_session_save exCBoxPk exSessPending).2.2.1.prekeys = []
    ∧ (cbox_session_save exCBoxPk exSessPending).2.1.store.st.sessions
        = alistInsert exSessPending.sid exSessPending.sess exCBoxPk.store.st.sessions
    ∧ (cbox_session_save exCBoxPk exSessPending).2.1.store.st.prekeys
        = removeAllPrekeys exCBoxPk.store.st.prekeys exSessPending.prekeys
    ∧ (cbox_session_save exCBoxPk exSessPending).2.1.store.st.identity
        = exCBoxPk.store.st.identity := by
  have h := claim_C4 exCBoxPk exSessPending (by decide)
  exact ⟨by decide, h.1, h.2.1, h.2.2.1, h.2.2.2.1, h.2.2.2.2⟩

-- C1 ---------------------------------------------------------------------------

/-- A Store whose only failing operation is the removal of prekey 2. -/
def c1Store : Store :=
  ⟨fun e => decide (e = .removePrekey 2), ⟨none, [], [(1, ⟨1, 11⟩), (2, ⟨2, 22⟩)]⟩⟩

/-- A Root Handle over c1Store. -/
def c1CBox : CBox := ⟨c1Store, exIdent⟩

/-- A Session Handle with prekeys 1 and 2 staged for removal. -/
def c1Sess : CBoxSession := ⟨[97], 5, [1, 2]⟩

/-- Counterexample to C1 as stated: with prekeys 1 and 2 staged and the
Store failing exactly on the removal of prekey 2, Save() fails, yet
prekey 1 has been deleted from the Store while prekey 2 has not — the
staged removals are neither all committed nor none of them. -/
theorem claim_C1_cex :
    (cbox_session_save c1CBox c1Sess).1 ≠ CBoxResult.Success
    ∧ (1 : PreKeyId) ∈ c1Sess.prekeys
    ∧ (2 : PreKeyId) ∈ c1Sess.prekeys
    ∧ alistLookup 1 c1CBox.store.st.prekeys = some ⟨1, 11⟩
    ∧ alistLookup 2 c1CBox.store.st.prekeys = some ⟨2, 22⟩
    ∧ alistLookup 1 (cbox_session_save c1CBox c1Sess).2.1.store.st.prekeys = none
    ∧ alistLookup 2 (cbox_session_save c1CBox c1Sess).2.1.store.st.prekeys
        = some ⟨2, 22⟩ := by
  decide

/-- Claim C1 (amended): if Save() fails, the staged pending prekey
removals that were committed to the Store form a prefix of the pending
list — possibly empty, possibly proper — and the pending-removal list on
the Session Handle is left unchanged (it is not cleared), so the
uncommitted removals remain staged; other Store contents are untouched. -/
theorem claim_C1 (cb : CBox) (sess : CBoxSession)
    (h : (cbox_session_save cb sess).1 ≠ CBoxResult.Success) :
    (cbox_session_save cb sess).2.2.1 = sess
    ∧ (cbox_session_save cb sess).2.1.store.st.identity = cb.store.st.identity
    ∧ ∃ p q, sess.prekeys = p ++ q
      ∧ (cbox_session_save cb sess).2.1.store.st.prekeys
          = removeAllPrekeys cb.store.st.prekeys p := by
  cases hf : cb.store.fails (.saveSession sess.sid sess.sess) with
  | true =>
    unfold cbox_session_save Store.save_session
    rw [hf]
    exact ⟨rfl, rfl, [], sess.prekeys, rfl, by simp [removeAllPrekeys]⟩
  | false =>
    unfold cbox_session_save Store.save_session at h ⊢
    rw [hf] at h ⊢
    simp only [Bool.false_eq_true, if_false] at h ⊢
    rcases hcp : commitPrekeys
        ⟨cb.store.fails, ⟨cb.store.st.identity,
          alistInsert sess.sid sess.sess cb.store.st.sessions, cb.store.st.prekeys⟩⟩
        sess.prekeys with ⟨r₂, s₂, tr₂⟩
    cases r₂ with
    | ok u =>
      rw [hcp] at h
      exact absurd rfl h
    | error e =>
      have herr := commitPrekeys_err sess.prekeys
        ⟨cb.store.fails, ⟨cb.store.st.identity,
          alistInsert sess.sid sess.sess cb.store.st.sessions, cb.store.st.prekeys⟩⟩
        (by rw [hcp]; simp)
      rw [hcp] at herr
      obtain ⟨p, q, hpq, h₁, h₂, h₃⟩ := herr
      simp only at h₁ h₂
      exact ⟨rfl, by simp [h₂], p, q, hpq, by simp [h₁]⟩

theorem claim_C1_witness :
    (cbox_session_save c1CBox c1Sess).1 ≠ CBoxResult.Success
    ∧ (cbox_session_save c1CBox c1Sess).2.2.1 = c1Sess
    ∧ (cbox_session_save c1CBox c1Sess).2.1.store.st.identity
        = c1CBox.store.st.identity
    ∧ ∃ p q, c1Sess.prekeys = p ++ q
      ∧ (cbox_session_save c1CBox c1Sess).2.1.store.st.prekeys
          = removeAllPrekeys c1CBox.store.st.prekeys p := by
  have h := claim_C1 c1CBox c1Sess (by decide)
  exact ⟨by decide, h.1, h.2.1, h.2.2⟩

-- C2 ---------------------------------------------------------------------------

/-- Membership in the pending list is preserved by any sequence of
PreKeyStore calls on a ReadOnlyPks instance: lookups never change the
list and removes only append. -/
theorem mem_runPksOps (ops : List PksOp) (pending : List PreKeyId) (s : Store)
    (id : PreKeyId) (h : id ∈ pending) : id ∈ (runPksOps ops (pending, s)).1 := by
  induction ops generalizing pending s with
  | nil => simpa [runPksOps] using h
  | cons op ops ih =>
    cases op with
    | lookup i =>
      simp only [runPksOps]
      apply ih
      unfold ReadOnlyPks.prekey
      split
      · simpa using h
      · simpa using h
    | consume i =>
      simp only [runPksOps]
      apply ih
      unfold ReadOnlyPks.remove
      simp [h]

/-- Claim C2: on a Deferred Prekey Store instance, remove(id) appends id
to the pending list and returns success without touching the underlying
Store; after remove(id), any later lookup(id) on the same instance — with
arbitrary interleaved lookups and removes — returns not-found; and a
lookup of an id not in the pending list delegates to the underlying
Store. -/
theorem claim_C2 :
    (∀ (pending : List PreKeyId) (s : Store) (id : PreKeyId),
      ReadOnlyPks.remove pending s id = (.ok (), pending ++ [id], s, []))
    ∧ (∀ (ops : List PksOp) (pending : List PreKeyId) (s : Store) (id : PreKeyId),
      (ReadOnlyPks.prekey (runPksOps ops (pending ++ [id], s)).1
          (runPksOps ops (pending ++ [id], s)).2 id).1 = .ok none)
    ∧ (∀ (pending : List PreKeyId) (s : Store) (id : PreKeyId),
      pending.contains id = false →
      ReadOnlyPks.prekey pending s id
        = ((Store.prekey s id).1, pending, (Store.prekey s id).2.1,
            (Store.prekey s id).2.2)) := by
  refine ⟨fun pending s id => rfl, ?_, ?_⟩
  · intro ops pending s id
    have hm : id ∈ (runPksOps ops (pending ++ [id], s)).1 :=
      mem_runPksOps ops (pending ++ [id]) s id (by simp)
    unfold ReadOnlyPks.prekey
    have hc : (runPksOps ops (pending ++ [id], s)).1.contains id = true :=
      List.elem_eq_true_of_mem hm
    rw [hc]
    rfl
  · intro pending s id h
    unfold ReadOnlyPks.prekey
    rw [h]
    rfl

theorem claim_C2_witness :
    (([] : List PreKeyId).contains 1 = false)
    ∧ ReadOnlyPks.prekey [] exStorePk 1
        = ((Store.prekey exStorePk 1).1, [], (Store.prekey exStorePk 1).2.1,
            (Store.prekey exStorePk 1).2.2) :=
  ⟨by decide, claim_C2.2.2 [] exStorePk 1 (by decide)⟩

-- C3 ---------------------------------------------------------------------------

/-- Claim C3: closing a Session Handle performs no Store operation, so a
prekey that is merely staged for removal on the handle is still in the
Store after the close; a fresh Deferred Prekey Store over the same Store
(as bound by a replayed InitFromMessage) therefore still retrieves it. -/
theorem claim_C3 (cb : CBox) (sess : CBoxSession) (id : PreKeyId) (pk : PreKey)
    (_hid : id ∈ sess.prekeys)
    (hstore : alistLookup id cb.store.st.prekeys = some pk)
    (hfail : cb.store.fails (.getPrekey id) = false) :
    cbox_session_close cb sess = (cb, [])
    ∧ (ReadOnlyPks.prekey ReadOnlyPks.new (cbox_session_close cb sess).1.store id).1
        = .ok (some pk) := by
  refine ⟨rfl, ?_⟩
  unfold cbox_session_close ReadOnlyPks.prekey Store.prekey ReadOnlyPks.new
  simp [hfail, hstore]

theorem claim_C3_witness :
    ((1 : PreKeyId) ∈ exSessPending.prekeys
      ∧ alistLookup 1 exCBoxPk.store.st.prekeys = some ⟨1, 11⟩
      ∧ exCBoxPk.store.fails (.getPrekey 1) = false)
    ∧ cbox_session_close exCBoxPk exSessPending = (exCBoxPk, [])
    ∧ (ReadOnlyPks.prekey ReadOnlyPks.new
        (cbox_session_close exCBoxPk exSessPending).1.store 1).1 = .ok (some ⟨1, 11⟩) := by
  refine ⟨⟨by decide, by decide, rfl⟩, ?_, ?_⟩
  · exact (claim_C3 exCBoxPk exSessPending 1 ⟨1, 11⟩ (by decide) (by decide) rfl).1
  · exact (claim_C3 exCBoxPk exSessPending 1 ⟨1, 11⟩ (by decide) (by decide) rfl).2

-- C6 ---------------------------------------------------------------------------

/-- Counterexample to C6 as stated: the session identifier argument
[65, 0, 66] contains an embedded terminator byte, yet DeleteStatic does
not return NulError — the C string read stops at the terminator, the
identifier is silently truncated to [65], and the Store IS accessed (the
deleteSession event for the truncated identifier is attempted), returning
Success. -/
theorem claim_C6_cex :
    (([65, 0, 66] : List Nat).contains 0 = true)
    ∧ (cbox_session_delete exCBoxPk [65, 0, 66]).1 = CBoxResult.Success
    ∧ (cbox_session_delete exCBoxPk [65, 0, 66]).1 ≠ CBoxResult.NulError
    ∧ (cbox_session_delete exCBoxPk [65, 0, 66]).2.2
        = [StoreEvent.deleteSession [65]] := by
  decide

/-- True when a session-identifier parse ended in the NulError outcome. -/
def isNulErrorSID : Except CBoxResult (List Nat) → Bool
  | .error .NulError => true
  | _ => false

/-- The bytes read from a C string never contain the terminator. -/
theorem cstrToBytes_not_contains_zero (l : List Nat) :
    (cstrToBytes l).contains 0 = false := by
  induction l with
  | nil => rfl
  | cons b t ih =>
    by_cases hb : b = 0
    · subst hb
      simp [cstrToBytes]
    · have ihm : (0 : Nat) ∉ List.takeWhile (fun x => x != 0) t := by
        simpa [cstrToBytes] using ih
      have hb2 : (b != 0) = true := by simpa using hb
      simp [cstrToBytes, List.takeWhile_cons, hb2, Ne.symm hb, ihm]

/-- Claim C6 (amended): a session identifier argument is read only up to
its first terminator byte, so an embedded terminator is never observed:
parsing never yields the NulError outcome (the identifier is silently
truncated instead, and the operations proceed with the truncated
identifier, subject only to UTF-8 validation). -/
theorem claim_C6 (mem : List Nat) :
    isNulErrorSID (SID_from_raw mem) = false
    ∧ SID_from_raw mem = SID_from_raw (cstrToBytes mem) := by
  constructor
  · unfold SID_from_raw
    rw [cstrToBytes_not_contains_zero]
    simp only [Bool.false_eq_true, if_false]
    split <;> rfl
  · unfold SID_from_raw cstrToBytes
    rw [List.takeWhile_idem]

-- C9 ---------------------------------------------------------------------------

/-- Claim C9: InitFromPrekeyBundle attempts no Store operation at all —
its event trace is empty and the Root Handle (hence the Store) is
returned unchanged — and on success the new Session Handle carries a
Deferred Prekey Store with an empty pending list. -/
theorem claim_C9 (bundleDec : List Nat → Except Unit PreKeyBundle)
    (mkSession : IdentityKeyPair → PreKeyBundle → SessionData)
    (cb : CBox) (sidMem bundleBytes : List Nat) :
    (cbox_session_init_from_prekey bundleDec mkSession cb sidMem bundleBytes).2.2.2 = []
    ∧ (cbox_session_init_from_prekey bundleDec mkSession cb sidMem bundleBytes).2.2.1 = cb
    ∧ ∀ sOut,
      (cbox_session_init_from_prekey bundleDec mkSession cb sidMem bundleBytes).2.1
        = some sOut → sOut.prekeys = [] := by
  unfold cbox_session_init_from_prekey
  rcases SID_from_raw sidMem with e | sid
  · simp
  · rcases bundleDec bundleBytes with e | b
    · simp
    · refine ⟨rfl, rfl, ?_⟩
      intro sOut hs
      simp only [Option.some.injEq] at hs
      rw [← hs]
      rfl

/-- A prekey-bundle deserialiser that always succeeds. -/
def exBundleDec : List Nat → Except Unit PreKeyBundle := fun _ => .ok 0

/-- An initiator-session constructor returning a fixed session state. -/
def exMkSession : IdentityKeyPair → PreKeyBundle → SessionData := fun _ _ => 0

theorem claim_C9_witness :
    (cbox_session_init_from_prekey exBundleDec exMkSession exCBoxPk [97] []).2.2.2 = []
    ∧ (cbox_session_init_from_prekey exBundleDec exMkSession exCBoxPk [97] []).2.1
        = some ⟨[97], 0, []⟩
    ∧ (⟨[97], 0, []⟩ : CBoxSession).prekeys = [] := by
  refine ⟨(claim_C9 exBundleDec exMkSession exCBoxPk [97] []).1, by decide, ?_⟩
  exact (claim_C9 exBundleDec exMkSession exCBoxPk [97] []).2.2 ⟨[97], 0, []⟩ (by decide)

-- C7 ---------------------------------------------------------------------------

/-- cbox_file_open either succeeds or leaves its out-parameter unwritten. -/
theorem open_success_or_none (pathMem : List Nat) (freshId : IdentityKeyPair)
    (s : Store) :
    (cbox_file_open pathMem freshId s).1 = .Success
    ∨ (cbox_file_open pathMem freshId s).2.1 = none := by
  unfold cbox_file_open
  repeat' split <;> simp -failIfUnchanged

/-- cbox_file_open_with either succeeds or leaves its out-parameter unwritten. -/
theorem open_with_success_or_none (idDec : List Nat → Except Unit Identity)
    (pathMem idBytes : List Nat) (mode : CBoxIdentityMode) (s : Store) :
    (cbox_file_open_with idDec pathMem idBytes mode s).1 = .Success
    ∨ (cbox_file_open_with idDec pathMem idBytes mode s).2.1 = none := by
  unfold cbox_file_open_with
  repeat' split <;> simp -failIfUnchanged

/-- cbox_identity_copy either succeeds or leaves its out-parameter unwritten. -/
theorem identity_copy_success_or_none (serIdent : Identity → Except Unit (List Nat))
    (cb : CBox) :
    (cbox_identity_copy serIdent cb).1 = .Success
    ∨ (cbox_identity_copy serIdent cb).2 = none := by
  unfold cbox_identity_copy
  repeat' split <;> simp -failIfUnchanged

/-- cbox_new_prekey either succeeds or leaves its out-parameter unwritten. -/
theorem new_prekey_success_or_none (mkPreKey : PreKeyId → PreKey)
    (serBundle : PublicKey → PreKey → Except Unit (List Nat)) (cb : CBox)
    (id : PreKeyId) :
    (cbox_new_prekey mkPreKey serBundle cb id).1 = .Success
    ∨ (cbox_new_prekey mkPreKey serBundle cb id).2.1 = none := by
  unfold cbox_new_prekey
  repeat' split <;> simp -failIfUnchanged

/-- cbox_session_init_from_prekey either succeeds or leaves its
out-parameter unwritten. -/
theorem init_from_prekey_success_or_none
    (bundleDec : List Nat → Except Unit PreKeyBundle)
    (mkSession : IdentityKeyPair → PreKeyBundle → SessionData)
    (cb : CBox) (sidMem bundleBytes : List Nat) :
    (cbox_session_init_from_prekey bundleDec mkSession cb sidMem bundleBytes).1
        = .Success
    ∨ (cbox_session_init_from_prekey bundleDec mkSession cb sidMem bundleBytes).2.1
        = none := by
  unfold cbox_session_init_from_prekey
  repeat' split <;> simp -failIfUnchanged

/-- cbox_session_init_from_message either succeeds or leaves both of its
out-parameters unwritten. -/
theorem init_from_message_success_or_none
    (envDec : List Nat → Except Unit Envelope)
    (initMsg : IdentityKeyPair → Envelope → List PreKeyId → Store →
      Except DecryptErr (SessionData × List Nat) × List PreKeyId × Store × List StoreEvent)
    (cb : CBox) (sidMem cipher : List Nat) :
    (cbox_session_init_from_message envDec initMsg cb sidMem cipher).1 = .Success
    ∨ ((cbox_session_init_from_message envDec initMsg cb sidMem cipher).2.1 = none
      ∧ (cbox_session_init_from_message envDec initMsg cb sidMem cipher).2.2.1
          = none) := by
  unfold cbox_session_init_from_message
  repeat' split <;> simp -failIfUnchanged

/-- cbox_session_get either succeeds or leaves its out-parameter unwritten. -/
theorem session_get_success_or_none (cb : CBox) (sidMem : List Nat) :
    (cbox_session_get cb sidMem).1 = .Success
    ∨ (cbox_session_get cb sidMem).2.1 = none := by
  unfold cbox_session_get
  repeat' split <;> simp -failIfUnchanged

/-- cbox_encrypt either succeeds or leaves its out-parameter unwritten. -/
theorem encrypt_success_or_none
    (encryptSer : SessionData → List Nat → Except Unit (SessionData × List Nat))
    (sess : CBoxSession) (plain : List Nat) :
    (cbox_encrypt encryptSer sess plain).1 = .Success
    ∨ (cbox_encrypt encryptSer sess plain).2.1 = none := by
  unfold cbox_encrypt
  repeat' split <;> simp -failIfUnchanged

/-- cbox_decrypt either succeeds or leaves its out-parameter unwritten. -/
theorem decrypt_success_or_none (envDec : List Nat → Except Unit Envelope)
    (decryptFn : SessionData → List PreKeyId → Store → Envelope →
      Except DecryptErr (List Nat) × SessionData × List PreKeyId × Store × List StoreEvent)
    (cb : CBox) (sess : CBoxSession) (cipher : List Nat) :
    (cbox_decrypt envDec decryptFn cb sess cipher).1 = .Success
    ∨ (cbox_decrypt envDec decryptFn cb sess cipher).2.1 = none := by
  unfold cbox_decrypt
  repeat' split <;> simp -failIfUnchanged

/-- Claim C7: for every fallible boundary operation with out-parameters
(Open, OpenWith, CopyIdentity, NewPrekey, InitFromPrekeyBundle,
InitFromMessage, Get, Encrypt, Decrypt), a non-success result leaves
every out-parameter unwritten. -/
theorem claim_C7 :
    (∀ (pathMem : List Nat) (freshId : IdentityKeyPair) (s : Store),
      (cbox_file_open pathMem freshId s).1 ≠ .Success →
      (cbox_file_open pathMem freshId s).2.1 = none)
    ∧ (∀ (idDec : List Nat → Except Unit Identity) (pathMem idBytes : List Nat)
        (mode : CBoxIdentityMode) (s : Store),
      (cbox_file_open_with idDec pathMem idBytes mode s).1 ≠ .Success →
      (cbox_file_open_with idDec pathMem idBytes mode s).2.1 = none)
    ∧ (∀ (serIdent : Identity → Except Unit (List Nat)) (cb : CBox),
      (cbox_identity_copy serIdent cb).1 ≠ .Success →
      (cbox_identity_copy serIdent cb).2 = none)
    ∧ (∀ (mkPreKey : PreKeyId → PreKey)
        (serBundle : PublicKey → PreKey → Except Unit (List Nat)) (cb : CBox)
        (id : PreKeyId),
      (cbox_new_prekey mkPreKey serBundle cb id).1 ≠ .Success →
      (cbox_new_prekey mkPreKey serBundle cb id).2.1 = none)
    ∧ (∀ (bundleDec : List Nat → Except Unit PreKeyBundle)
        (mkSession : IdentityKeyPair → PreKeyBundle → SessionData)
        (cb : CBox) (sidMem bundleBytes : List Nat),
      (cbox_session_init_from_prekey bundleDec mkSession cb sidMem bundleBytes).1
          ≠ .Success →
      (cbox_session_init_from_prekey bundleDec mkSession cb sidMem bundleBytes).2.1
          = none)
    ∧ (∀ (envDec : List Nat → Except Unit Envelope)
        (initMsg : IdentityKeyPair → Envelope → List PreKeyId → Store →
          Except DecryptErr (SessionData × List Nat) × List PreKeyId × Store ×
            List StoreEvent)
        (cb : CBox) (sidMem cipher : List Nat),
      (cbox_session_init_from_message envDec initMsg cb sidMem cipher).1 ≠ .Success →
      (cbox_session_init_from_message envDec initMsg cb sidMem cipher).2.1 = none
      ∧ (cbox_session_init_from_message envDec initMsg cb sidMem cipher).2.2.1 = none)
    ∧ (∀ (cb : CBox) (sidMem : List Nat),
      (cbox_session_get cb sidMem).1 ≠ .Success →
      (cbox_session_get cb sidMem).2.1 = none)
    ∧ (∀ (encryptSer : SessionData → List Nat → Except Unit (SessionData × List Nat))
        (sess : CBoxSession) (plain : List Nat),
      (cbox_encrypt encryptSer sess plain).1 ≠ .Success →
      (cbox_encrypt encryptSer sess plain).2.1 = none)
    ∧ (∀ (envDec : List Nat → Except Unit Envelope)
        (decryptFn : SessionData → List PreKeyId → Store → Envelope →
          Except DecryptErr (List Nat) × SessionData × List PreKeyId × Store ×
            List StoreEvent)
        (cb : CBox) (sess : CBoxSession) (cipher : List Nat),
      (cbox_decrypt envDec decryptFn cb sess cipher).1 ≠ .Success →
      (cbox_decrypt envDec decryptFn cb sess cipher).2.1 = none) := by
  refine ⟨?_, ?_, ?_, ?_, ?_, ?_, ?_, ?_, ?_⟩
  · intro pathMem freshId s h
    rcases open_success_or_none pathMem freshId s with hs | hn
    · exact absurd hs h
    · exact hn
  · intro idDec pathMem idBytes mode s h
    rcases open_with_success_or_none idDec pathMem idBytes mode s with hs | hn
    · exact absurd hs h
    · exact hn
  · intro serIdent cb h
    rcases identity_copy_success_or_none serIdent cb with hs | hn
    · exact absurd hs h
    · exact hn
  · intro mkPreKey serBundle cb id h
    rcases new_prekey_success_or_none mkPreKey serBundle cb id with hs | hn
    · exact absurd hs h
    · exact hn
  · intro bundleDec mkSession cb sidMem bundleBytes h
    rcases init_from_prekey_success_or_none bundleDec mkSession cb sidMem bundleBytes
      with hs | hn
    · exact absurd hs h
    · exact hn
  · intro envDec initMsg cb sidMem cipher h
    rcases init_from_message_success_or_none envDec initMsg cb sidMem cipher
      with hs | hn
    · exact absurd hs h
    · exact hn
  · intro cb sidMem h
    rcases session_get_success_or_none cb sidMem with hs | hn
    · exact absurd hs h
    · exact hn
  · intro encryptSer sess plain h
    rcases encrypt_success_or_none encryptSer sess plain with hs | hn
    · exact absurd hs h
    · exact hn
  · intro envDec decryptFn cb sess cipher h
    rcases decrypt_success_or_none envDec decryptFn cb sess cipher with hs | hn
    · exact absurd hs h
    · exact hn

/-- An identity deserialiser that always fails (boundary decode failure). -/
def idDecFail : List Nat → Except Unit Identity := fun _ => .error ()

/-- An identity serialiser that always fails (boundary encode failure). -/
def serIdentFail : Identity → Except Unit (List Nat) := fun _ => .error ()

/-- A prekey-bundle serialiser that always fails. -/
def serBundleFail : PublicKey → PreKey → Except Unit (List Nat) := fun _ _ => .error ()

/-- A concrete prekey generator. -/
def mkPreKeyEx : PreKeyId → PreKey := fun i => ⟨i, 99⟩

/-- A prekey-bundle deserialiser that always fails. -/
def bundleDecFail : List Nat → Except Unit PreKeyBundle := fun _ => .error ()

/-- An envelope deserialiser that always fails. -/
def envDecFail : List Nat → Except Unit Envelope := fun _ => .error ()

/-- An encrypt-and-serialise step that always fails. -/
def encryptSerFail : SessionData → List Nat → Except Unit (SessionData × List Nat) :=
  fun _ _ => .error ()

/-- A responder-session derivation whose behaviour is irrelevant here
(the envelope decode already failed before it would run). -/
def initMsgEx : IdentityKeyPair → Envelope → List PreKeyId → Store →
    Except DecryptErr (SessionData × List Nat) × List PreKeyId × Store ×
      List StoreEvent :=
  fun _ _ p s => (.error .DuplicateMessage, p, s, [])

/-- A ratchet decrypt whose behaviour is irrelevant here. -/
def decryptFnEx : SessionData → List PreKeyId → Store → Envelope →
    Except DecryptErr (List Nat) × SessionData × List PreKeyId × Store ×
      List StoreEvent :=
  fun sd p s _ => (.error .DuplicateMessage, sd, p, s, [])

theorem claim_C7_witness :
    ((cbox_file_open [0xFF] exIdent exStorePk).1 ≠ .Success
      ∧ (cbox_file_open [0xFF] exIdent exStorePk).2.1 = none)
    ∧ ((cbox_file_open_with idDecFail [97] [] .Complete exStorePk).1 ≠ .Success
      ∧ (cbox_file_open_with idDecFail [97] [] .Complete exStorePk).2.1 = none)
    ∧ ((cbox_identity_copy serIdentFail exCBoxPk).1 ≠ .Success
      ∧ (cbox_identity_copy serIdentFail exCBoxPk).2 = none)
    ∧ ((cbox_new_prekey mkPreKeyEx serBundleFail exCBoxPk 3).1 ≠ .Success
      ∧ (cbox_new_prekey mkPreKeyEx serBundleFail exCBoxPk 3).2.1 = none)
    ∧ ((cbox_session_init_from_prekey bundleDecFail exMkSession exCBoxPk [97] []).1
          ≠ .Success
      ∧ (cbox_session_init_from_prekey bundleDecFail exMkSession exCBoxPk [97] []).2.1
          = none)
    ∧ ((cbox_session_init_from_message envDecFail initMsgEx exCBoxPk [97] []).1
          ≠ .Success
      ∧ (cbox_session_init_from_message envDecFail initMsgEx exCBoxPk [97] []).2.1
          = none
      ∧ (cbox_session_init_from_message envDecFail initMsgEx exCBoxPk [97] []).2.2.1
          = none)
    ∧ ((cbox_session_get exCBoxPk [97]).1 ≠ .Success
      ∧ (cbox_session_get exCBoxPk [97]).2.1 = none)
    ∧ ((cbox_encrypt encryptSerFail exSessPending [1, 2]).1 ≠ .Success
      ∧ (cbox_encrypt encryptSerFail exSessPending [1, 2]).2.1 = none)
    ∧ ((cbox_decrypt envDecFail decryptFnEx exCBoxPk exSessPending [5]).1 ≠ .Success
      ∧ (cbox_decrypt envDecFail decryptFnEx exCBoxPk exSessPending [5]).2.1
          = none) := by
  refine ⟨⟨by decide, ?_⟩, ⟨by decide, ?_⟩, ⟨by decide, ?_⟩, ⟨by decide, ?_⟩,
    ⟨by decide, ?_⟩, ⟨by decide, ?_, ?_⟩, ⟨by decide, ?_⟩, ⟨by decide, ?_⟩,
    ⟨by decide, ?_⟩⟩
  · exact claim_C7.1 [0xFF] exIdent exStorePk (by decide)
  · exact claim_C7.2.1 idDecFail [97] [] .Complete exStorePk (by decide)
  · exact claim_C7.2.2.1 serIdentFail exCBoxPk (by decide)
  · exact claim_C7.2.2.2.1 mkPreKeyEx serBundleFail exCBoxPk 3 (by decide)
  · exact claim_C7.2.2.2.2.1 bundleDecFail exMkSession exCBoxPk [97] [] (by decide)
  · exact (claim_C7.2.2.2.2.2.1 envDecFail initMsgEx exCBoxPk [97] [] (by decide)).1
  · exact (claim_C7.2.2.2.2.2.1 envDecFail initMsgEx exCBoxPk [97] [] (by decide)).2
  · exact claim_C7.2.2.2.2.2.2.1 exCBoxPk [97] (by decide)
  · exact claim_C7.2.2.2.2.2.2.2.1 encryptSerFail exSessPending [1, 2] (by decide)
  · exact claim_C7.2.2.2.2.2.2.2.2 envDecFail decryptFnEx exCBoxPk exSessPending [5]
      (by decide)

-- C8 ---------------------------------------------------------------------------

/-- Claim C8: Open(path) with no stored Identity record generates a fresh
full key pair, persists it as the identity, and returns Success with a
Root Handle holding that pair; with a stored public-only record it fails
with IdentityError, leaves the Store exactly as it was (in particular it
neither creates nor persists any key pair — the only attempted events are
the store open and the identity load), and writes no out-parameter. -/
theorem claim_C8 (pathMem name : List Nat) (freshId : IdentityKeyPair) (s : Store)
    (hpath : strFromUtf8 (cstrToBytes pathMem) = .ok name)
    (hnew : s.fails (.newStore name) = false)
    (hload : s.fails .loadIdentity = false) :
    (s.st.identity = none → s.fails (.saveIdentity (.Sec freshId)) = false →
      (cbox_file_open pathMem freshId s).1 = .Success
      ∧ (cbox_file_open pathMem freshId s).2.1
          = some ⟨⟨s.fails, ⟨some (.Sec freshId), s.st.sessions, s.st.prekeys⟩⟩, freshId⟩
      ∧ (cbox_file_open pathMem freshId s).2.2.1.st.identity = some (.Sec freshId))
    ∧ (∀ pk, s.st.identity = some (.Pub pk) →
      (cbox_file_open pathMem freshId s).1 = .IdentityError
      ∧ (cbox_file_open pathMem freshId s).2.1 = none
      ∧ (cbox_file_open pathMem freshId s).2.2.1 = s
      ∧ (cbox_file_open pathMem freshId s).2.2.2 = [.newStore name, .loadIdentity]) := by
  unfold cbox_file_open Store.load_identity Store.save_identity
  rw [hpath]
  simp only [hnew, hload, Bool.false_eq_true, if_false]
  constructor
  · intro hid hsave
    rw [hid]
    simp only [hsave, Bool.false_eq_true, if_false]
    refine ⟨?_, ?_, ?_⟩ <;> trivial
  · intro pk hid
    rw [hid]
    refine ⟨?_, ?_, ?_, ?_⟩ <;> trivial

/-- A concrete Store holding a public-only identity record. -/
def exStorePubOnly : Store := ⟨noFail, ⟨some (.Pub exPub), [], []⟩⟩

theorem claim_C8_witness :
    ((cbox_file_open [97] exIdent exStorePk).1 = .Success
      ∧ (cbox_file_open [97] exIdent exStorePk).2.1
          = some ⟨⟨exStorePk.fails,
              ⟨some (.Sec exIdent), exStorePk.st.sessions, exStorePk.st.prekeys⟩⟩,
              exIdent⟩
      ∧ (cbox_file_open [97] exIdent exStorePk).2.2.1.st.identity
          = some (.Sec exIdent))
    ∧ ((cbox_file_open [97] exIdent exStorePubOnly).1 = .IdentityError
      ∧ (cbox_file_open [97] exIdent exStorePubOnly).2.1 = none
      ∧ (cbox_file_open [97] exIdent exStorePubOnly).2.2.1 = exStorePubOnly
      ∧ (cbox_file_open [97] exIdent exStorePubOnly).2.2.2
          = [.newStore [97], .loadIdentity]) := by
  constructor
  · exact (claim_C8 [97] [97] exIdent exStorePk rfl rfl rfl).1 rfl rfl
  · exact (claim_C8 [97] [97] exIdent exStorePubOnly rfl rfl rfl).2 exPub rfl

-- C5 ---------------------------------------------------------------------------

/-- Claim C5: OpenWith implements the nine-cell reconciliation table keyed
by (stored record kind, mode).  With no stored record the external full
pair is persisted as a full pair (Complete) or as public-only (Public);
with a stored full pair of the same public key the store is unchanged
(Complete) or downgraded to public-only (Public); with a stored
public-only record of the same public key the store is upgraded to the
full pair (Complete) or unchanged (Public); with any stored record whose
public key differs, the call fails with IdentityError, the Store is
unmodified and no out-parameter is written. -/
theorem claim_C5 (idDec : List Nat → Except Unit Identity)
    (pathMem idBytes name : List Nat) (ident : IdentityKeyPair)
    (hpath : strFromUtf8 (cstrToBytes pathMem) = .ok name)
    (hdec : idDec idBytes = .ok (.Sec ident)) :
    (∀ s : Store, s.st.identity = none →
      s.fails (.newStore name) = false → s.fails .loadIdentity = false →
      s.fails (.saveIdentity (.Sec ident)) = false →
      (cbox_file_open_with idDec pathMem idBytes .Complete s).1 = .Success
      ∧ (cbox_file_open_with idDec pathMem idBytes .Complete s).2.2.1.st.identity
          = some (.Sec ident))
    ∧ (∀ s : Store, s.st.identity = none →
      s.fails (.newStore name) = false → s.fails .loadIdentity = false →
      s.fails (.saveIdentity (.Pub ident.public_key)) = false →
      (cbox_file_open_with idDec pathMem idBytes .Public s).1 = .Success
      ∧ (cbox_file_open_with idDec pathMem idBytes .Public s).2.2.1.st.identity
          = some (.Pub ident.public_key))
    ∧ (∀ (s : Store) (localId : IdentityKeyPair),
      s.st.identity = some (.Sec localId) → ident.public_key = localId.public_key →
      s.fails (.newStore name) = false → s.fails .loadIdentity = false →
      (cbox_file_open_with idDec pathMem idBytes .Complete s).1 = .Success
      ∧ (cbox_file_open_with idDec pathMem idBytes .Complete s).2.2.1 = s)
    ∧ (∀ (s : Store) (localId : IdentityKeyPair),
      s.st.identity = some (.Sec localId) → ident.public_key = localId.public_key →
      s.fails (.newStore name) = false → s.fails .loadIdentity = false →
      s.fails (.saveIdentity (.Pub ident.public_key)) = false →
      (cbox_file_open_with idDec pathMem idBytes .Public s).1 = .Success
      ∧ (cbox_file_open_with idDec pathMem idBytes .Public s).2.2.1.st.identity
          = some (.Pub ident.public_key))
    ∧ (∀ (s : Store) (localPk : PublicKey),
      s.st.identity = some (.Pub localPk) → ident.public_key = localPk →
      s.fails (.newStore name) = false → s.fails .loadIdentity = false →
      s.fails (.saveIdentity (.Sec ident)) = false →
      (cbox_file_open_with idDec pathMem idBytes .Complete s).1 = .Success
      ∧ (cbox_file_open_with idDec pathMem idBytes .Complete s).2.2.1.st.identity
          = some (.Sec ident))
    ∧ (∀ (s : Store) (localPk : PublicKey),
      s.st.identity = some (.Pub localPk) → ident.public_key = localPk →
      s.fails (.newStore name) = false → s.fails .loadIdentity = false →
      (cbox_file_open_with idDec pathMem idBytes .Public s).1 = .Success
      ∧ (cbox_file_open_with idDec pathMem idBytes .Public s).2.2.1 = s)
    ∧ (∀ (s : Store) (localId : IdentityKeyPair) (mode : CBoxIdentityMode),
      s.st.identity = some (.Sec localId) → ident.public_key ≠ localId.public_key →
      s.fails (.newStore name) = false → s.fails .loadIdentity = false →
      (cbox_file_open_with idDec pathMem idBytes mode s).1 = .IdentityError
      ∧ (cbox_file_open_with idDec pathMem idBytes mode s).2.1 = none
      ∧ (cbox_file_open_with idDec pathMem idBytes mode s).2.2.1 = s)
    ∧ (∀ (s : Store) (localPk : PublicKey) (mode : CBoxIdentityMode),
      s.st.identity = some (.Pub localPk) → ident.public_key ≠ localPk →
      s.fails (.newStore name) = false → s.fails .loadIdentity = false →
      (cbox_file_open_with idDec pathMem idBytes mode s).1 = .IdentityError
      ∧ (cbox_file_open_with idDec pathMem idBytes mode s).2.1 = none
      ∧ (cbox_file_open_with idDec pathMem idBytes mode s).2.2.1 = s) := by
  refine ⟨?_, ?_, ?_, ?_, ?_, ?_, ?_, ?_⟩
  · intro s hid hnew hload hsave
    unfold cbox_file_open_with Store.load_identity Store.save_identity
    rw [hpath, hdec, hid]
    simp only [hnew, hload, hsave, Bool.false_eq_true, if_false]
    refine ⟨?_, ?_⟩ <;> trivial
  · intro s hid hnew hload hsave
    unfold cbox_file_open_with Store.load_identity Store.save_identity
    rw [hpath, hdec, hid]
    simp only [hnew, hload, hsave, Bool.false_eq_true, if_false]
    refine ⟨?_, ?_⟩ <;> trivial
  · intro s localId hid hpk hnew hload
    unfold cbox_file_open_with Store.load_identity
    rw [hpath, hdec, hid]
    simp only [hnew, hload, Bool.false_eq_true, if_false, if_pos hpk]
    refine ⟨?_, ?_⟩ <;> trivial
  · intro s localId hid hpk hnew hload hsave
    unfold cbox_file_open_with Store.load_identity Store.save_identity
    rw [hpath, hdec, hid]
    simp only [hnew, hload, hsave, Bool.false_eq_true, if_false, if_pos hpk]
    refine ⟨?_, ?_⟩ <;> trivial
  · intro s localPk hid hpk hnew hload hsave
    unfold cbox_file_open_with Store.load_identity Store.save_identity
    rw [hpath, hdec, hid]
    simp only [hnew, hload, hsave, Bool.false_eq_true, if_false, if_pos hpk]
    refine ⟨?_, ?_⟩ <;> trivial
  · intro s localPk hid hpk hnew hload
    unfold cbox_file_open_with Store.load_identity
    rw [hpath, hdec, hid]
    simp only [hnew, hload, Bool.false_eq_true, if_false, if_pos hpk]
    refine ⟨?_, ?_⟩ <;> trivial
  · intro s localId mode hid hpk hnew hload
    unfold cbox_file_open_with Store.load_identity
    rw [hpath, hdec, hid]
    simp only [hnew, hload, Bool.false_eq_true, if_false, if_neg hpk]
    refine ⟨?_, ?_, ?_⟩ <;> trivial
  · intro s localPk mode hid hpk hnew hload
    unfold cbox_file_open_with Store.load_identity
    rw [hpath, hdec, hid]
    simp only [hnew, hload, Bool.false_eq_true, if_false, if_neg hpk]
    refine ⟨?_, ?_, ?_⟩ <;> trivial

/-- An identity deserialiser returning the full pair exIdent. -/
def idDecSec : List Nat → Except Unit Identity := fun _ => .ok (.Sec exIdent)

/-- A concrete empty Store. -/
def exStoreNone : Store := ⟨noFail, ⟨none, [], []⟩⟩

/-- A concrete Store holding the full pair exIdent. -/
def exStoreSec : Store := ⟨noFail, ⟨some (.Sec exIdent), [], []⟩⟩

/-- A full pair with a different public key than exIdent. -/
def otherIdent : IdentityKeyPair := ⟨⟨4⟩, ⟨8⟩⟩

/-- A concrete Store holding a full pair with a different public key. -/
def exStoreOther : Store := ⟨noFail, ⟨some (.Sec otherIdent), [], []⟩⟩

/-- A concrete Store holding a public-only record with a different key. -/
def exStorePubOther : Store := ⟨noFail, ⟨some (.Pub ⟨8⟩), [], []⟩⟩

theorem claim_C5_witness :
    ((cbox_file_open_with idDecSec [97] [] .Complete exStoreNone).1 = .Success
      ∧ (cbox_file_open_with idDecSec [97] [] .Complete exStoreNone).2.2.1.st.identity
          = some (.Sec exIdent))
    ∧ ((cbox_file_open_with idDecSec [97] [] .Public exStoreNone).1 = .Success
      ∧ (cbox_file_open_with idDecSec [97] [] .Public exStoreNone).2.2.1.st.identity
          = some (.Pub exIdent.public_key))
    ∧ ((cbox_file_open_with idDecSec [97] [] .Complete exStoreSec).1 = .Success
      ∧ (cbox_file_open_with idDecSec [97] [] .Complete exStoreSec).2.2.1 = exStoreSec)
    ∧ ((cbox_file_open_with idDecSec [97] [] .Public exStoreSec).1 = .Success
      ∧ (cbox_file_open_with idDecSec [97] [] .Public exStoreSec).2.2.1.st.identity
          = some (.Pub exIdent.public_key))
    ∧ ((cbox_file_open_with idDecSec [97] [] .Complete exStorePubOnly).1 = .Success
      ∧ (cbox_file_open_with idDecSec [97] [] .Complete exStorePubOnly).2.2.1.st.identity
          = some (.Sec exIdent))
    ∧ ((cbox_file_open_with idDecSec [97] [] .Public exStorePubOnly).1 = .Success
      ∧ (cbox_file_open_with idDecSec [97] [] .Public exStorePubOnly).2.2.1
          = exStorePubOnly)
    ∧ ((cbox_file_open_with idDecSec [97] [] .Complete exStoreOther).1 = .IdentityError
      ∧ (cbox_file_open_with idDecSec [97] [] .Complete exStoreOther).2.1 = none
      ∧ (cbox_file_open_with idDecSec [97] [] .Complete exStoreOther).2.2.1
          = exStoreOther)
    ∧ ((cbox_file_open_with idDecSec [97] [] .Public exStorePubOther).1 = .IdentityError
      ∧ (cbox_file_open_with idDecSec [97] [] .Public exStorePubOther).2.1 = none
      ∧ (cbox_file_open_with idDecSec [97] [] .Public exStorePubOther).2.2.1
          = exStorePubOther) := by
  have h := claim_C5 idDecSec [97] [] [97] exIdent rfl rfl
  exact ⟨h.1 exStoreNone rfl rfl rfl rfl,
    h.2.1 exStoreNone rfl rfl rfl rfl,
    h.2.2.1 exStoreSec exIdent rfl rfl rfl rfl,
    h.2.2.2.1 exStoreSec exIdent rfl rfl rfl rfl rfl,
    h.2.2.2.2.1 exStorePubOnly exPub rfl rfl rfl rfl rfl,
    h.2.2.2.2.2.1 exStorePubOnly exPub rfl rfl rfl rfl,
    h.2.2.2.2.2.2.1 exStoreOther otherIdent .Complete rfl (by decide) rfl rfl,
    h.2.2.2.2.2.2.2 exStorePubOther ⟨8⟩ .Public rfl (by decide) rfl rfl⟩

-- C10 --------------------------------------------------------------------------

/-- Claim C10: whenever the externally supplied identity bytes deserialise
to a public-only record, OpenWith fails with IdentityError regardless of
the mode and of the Store contents, without writing the out-parameter and
without reading or writing any Store identity record: the only attempted
Store event is the store open at the path. -/
theorem claim_C10 (idDec : List Nat → Except Unit Identity)
    (pathMem idBytes name : List Nat) (pk : PublicKey) (mode : CBoxIdentityMode)
    (s : Store)
    (hpath : strFromUtf8 (cstrToBytes pathMem) = .ok name)
    (hnew : s.fails (.newStore name) = false)
    (hdec : idDec idBytes = .ok (.Pub pk)) :
    (cbox_file_open_with idDec pathMem idBytes mode s).1 = .IdentityError
    ∧ (cbox_file_open_with idDec pathMem idBytes mode s).2.1 = none
    ∧ (cbox_file_open_with idDec pathMem idBytes mode s).2.2.1 = s
    ∧ (cbox_file_open_with idDec pathMem idBytes mode s).2.2.2 = [.newStore name]
    ∧ StoreEvent.loadIdentity ∉ (cbox_file_open_with idDec pathMem idBytes mode s).2.2.2
    ∧ ∀ i, StoreEvent.saveIdentity i
        ∉ (cbox_file_open_with idDec pathMem idBytes mode s).2.2.2 := by
  unfold cbox_file_open_with
  rw [hpath, hdec]
  simp only [hnew, Bool.false_eq_true, if_false]
  refine ⟨?_, ?_, ?_, ?_, ?_, ?_⟩ <;> first | trivial | simp

/-- An identity deserialiser returning a public-only record. -/
def idDecPub : List Nat → Except Unit Identity := fun _ => .ok (.Pub ⟨9⟩)

theorem claim_C10_witness :
    (cbox_file_open_with idDecPub [97] [] .Public exStoreSec).1 = .IdentityError
    ∧ (cbox_file_open_with idDecPub [97] [] .Public exStoreSec).2.1 = none
    ∧ (cbox_file_open_with idDecPub [97] [] .Public exStoreSec).2.2.1 = exStoreSec
    ∧ (cbox_file_open_with idDecPub [97] [] .Public exStoreSec).2.2.2
        = [.newStore [97]]
    ∧ StoreEvent.loadIdentity
        ∉ (cbox_file_open_with idDecPub [97] [] .Public exStoreSec).2.2.2
    ∧ ∀ i, StoreEvent.saveIdentity i
        ∉ (cbox_file_open_with idDecPub [97] [] .Public exStoreSec).2.2.2 :=
  claim_C10 idDecPub [97] [] [97] ⟨9⟩ .Public exStoreSec rfl rfl rfl

end Cryptobox
